import Mathlib

/-!
Shallow embedding of `src/crypto_trading_bot.py`.

Numeric values (Python floats) are modelled as exact rationals; the display
formatting of numbers inside trade-summary strings (Python `:.6f` / `:.2f`)
is abstracted by `toString` on the rational, since those digits are
display-only and no property depends on them.  Fallible code (Python code
that can raise to its caller) returns `Option`: `none` is an uncaught
exception.  External I/O (the price feed, the oracle) is modelled by
passing the outcome of the call in as data.
-/

namespace CryptoBot

/-- `FEE_PERCENTAGE = 0.02`, the 2% trading fee. -/
def FEE_PERCENTAGE : ℚ := 2 / 100

/-- `get_current_price`: the feed either succeeds with a price
(`feed_result = some p`: the HTTP request, `raise_for_status`, JSON parse
and float conversion all succeed) or fails in any way
(`feed_result = none`: the `except` branch).  On failure the function
returns `price_history[-1] if price_history else 0`. -/
def get_current_price (feed_result : Option ℚ) (price_history : List ℚ) : ℚ :=
  match feed_result with
  | some p => p
  | none =>
    match price_history with
    | [] => 0
    | p :: ps => (p :: ps).getLast (List.cons_ne_nil p ps)

/-- Outcome of the oracle call as seen by the exception structure of
`call_llm`:
* `transportError`: any exception raised by the client construction, the
  chat-completion call or the access to `response.choices[0].message.content`
  (caught by the outer `except Exception`);
* `badJson`: the call succeeded but `json.loads` raised `JSONDecodeError`
  (caught by the inner `except json.JSONDecodeError`);
* `nonObject`: the content parsed as JSON but not as an object, so the
  subscript `llm_response[...]` raises `TypeError` (caught by the outer
  handler);
* `payload fields`: the content parsed as a JSON object with the given
  string fields (a Python dict, so keys are unique). -/
inductive OracleReply where
  | transportError
  | badJson
  | nonObject
  | payload (fields : List (String × String))
  deriving DecidableEq

/-- The tail of the inner try-block of `call_llm` once `json.loads` has
produced an object: `return llm_response['decision'],
llm_response['reasoning']`.  A missing `decision` or `reasoning` key raises
`KeyError`, which the inner handler (catching only `json.JSONDecodeError`)
does not catch, so it lands in the outer handler. -/
def payload_reply (fields : List (String × String)) : String × String :=
  match fields.lookup "decision", fields.lookup "reasoning" with
  | some d, some r => (d, r)
  | _, _ => ("Hold", "LLM error - holding by default")

/-- `call_llm`, reduced to how it maps the oracle outcome to the returned
`(decision, reasoning)` pair. -/
def call_llm (reply : OracleReply) : String × String :=
  match reply with
  | .transportError => ("Hold", "LLM error - holding by default")
  | .badJson => ("Hold", "Invalid LLM response format")
  | .nonObject => ("Hold", "LLM error - holding by default")
  | .payload fields => payload_reply fields

/-- The last-buy-price field embedded in the user prompt of `call_llm`:
`{last_buy_price or 0}` (the sentinel 0 when absent; `0.0 or 0` is also 0). -/
def llm_last_buy_field (last_buy_price : Option ℚ) : ℚ :=
  last_buy_price.getD 0

/-- What one call to `execute_trade` returns: the new pair of balances, the
summary string, and the value of the module-level global `last_buy_price`
after the call (the function body declares `global last_buy_price` and
assigns it in the Buy branch). -/
structure TradeResult where
  new_eur_balance : ℚ
  new_btc_balance : ℚ
  summary : String
  last_buy_price : Option ℚ
  deriving DecidableEq

/-- `execute_trade(current_price, eur_balance, btc_balance, decision)`.
The extra argument `last_buy_price` is the module-level global before the
call.  `none` models an uncaught exception: in the Buy branch
`eur_to_spend / current_price` raises `ZeroDivisionError` when
`current_price` is zero. -/
def execute_trade (current_price eur_balance btc_balance : ℚ)
    (decision : String) (last_buy_price : Option ℚ) : Option TradeResult :=
  if decision = "Buy" ∧ eur_balance > current_price * (1 + FEE_PERCENTAGE) then
    if current_price = 0 then
      none
    else
      let eur_to_spend := eur_balance * (1 - FEE_PERCENTAGE)
      let btc_bought := eur_to_spend / current_price
      some ⟨0, btc_balance + btc_bought,
        "Bought " ++ toString btc_bought ++ " BTC at " ++
          toString current_price ++ " €",
        some current_price⟩
  else if decision = "Sell" ∧ btc_balance > 0 then
    let btc_to_sell := btc_balance
    let eur_received := btc_to_sell * current_price * (1 - FEE_PERCENTAGE)
    some ⟨eur_balance + eur_received, 0,
      "Sold " ++ toString btc_to_sell ++ " BTC at " ++
        toString current_price ++ " €",
      last_buy_price⟩
  else
    some ⟨eur_balance, btc_balance, "No trade executed", last_buy_price⟩

/-- The mutable state of the process:
the globals `EUR_BALANCE`, `BTC_BALANCE`, `price_history`, the local
variable `last_buy_price` of `main` (initialised to `None` and, because
`main` lists only `EUR_BALANCE, BTC_BALANCE, price_history` in its
`global` statement, distinct from the module-level global), and the
module-level global `last_buy_price` written by `execute_trade`. -/
structure BotState where
  eur_balance : ℚ
  btc_balance : ℚ
  price_history : List ℚ
  last_buy_price_local : Option ℚ
  last_buy_price_global : Option ℚ
  deriving DecidableEq

/-- The state of `main` when the loop is first entered. -/
def initial_state : BotState :=
  { eur_balance := 1200
    btc_balance := 3 / 10
    price_history := []
    last_buy_price_local := none
    last_buy_price_global := none }

/-- The external events of one loop cycle: the outcome of the price fetch
and the outcome of the oracle call. -/
structure CycleInput where
  feed_result : Option ℚ
  oracle_reply : OracleReply

/-- One iteration of the `while True` loop in `main`: fetch the price,
append it to the history, get the decision from `call_llm` (which is passed
`last_buy_price`, the local of `main`), then apply `execute_trade` to the
balances.  `none` models the iteration dying on an uncaught exception. -/
def loop_step (inp : CycleInput) (s : BotState) : Option BotState :=
  let current_price := get_current_price inp.feed_result s.price_history
  let history2 := s.price_history ++ [current_price]
  let dr := call_llm inp.oracle_reply
  match execute_trade current_price s.eur_balance s.btc_balance dr.1
      s.last_buy_price_global with
  | none => none
  | some r =>
    some { eur_balance := r.new_eur_balance
           btc_balance := r.new_btc_balance
           price_history := history2
           last_buy_price_local := s.last_buy_price_local
           last_buy_price_global := r.last_buy_price }

/-- The value that the next call of `call_llm` receives as last-buy-price
context: `main` passes its local `last_buy_price`, and the prompt embeds
`{last_buy_price or 0}`. -/
def llm_last_buy_context (s : BotState) : ℚ :=
  llm_last_buy_field s.last_buy_price_local

/-- The input of the first loop cycle in the concrete run used for the
last-buy-price analysis: the feed returns 1000 and the oracle answers a
well-formed Buy. -/
def cycle1_input : CycleInput :=
  ⟨some 1000, .payload [("decision", "Buy"), ("reasoning", "up")]⟩

/-! ### Evaluation lemmas for the three branches of `execute_trade` -/

theorem execute_trade_buy_eq (price eur btc : ℚ) (g : Option ℚ)
    (hp : price ≠ 0) (h : eur > price * (1 + FEE_PERCENTAGE)) :
    execute_trade price eur btc "Buy" g =
      some ⟨0, btc + eur * (1 - FEE_PERCENTAGE) / price,
        "Bought " ++ toString (eur * (1 - FEE_PERCENTAGE) / price) ++
          " BTC at " ++ toString price ++ " €",
        some price⟩ := by
  unfold execute_trade
  rw [if_pos ⟨rfl, h⟩, if_neg hp]

theorem execute_trade_sell_eq (price eur btc : ℚ) (g : Option ℚ)
    (h : btc > 0) :
    execute_trade price eur btc "Sell" g =
      some ⟨eur + btc * price * (1 - FEE_PERCENTAGE), 0,
        "Sold " ++ toString btc ++ " BTC at " ++ toString price ++ " €",
        g⟩ := by
  unfold execute_trade
  rw [if_neg (by rintro ⟨hx, -⟩; exact absurd hx (by decide)), if_pos ⟨rfl, h⟩]

theorem execute_trade_noop_eq (price eur btc : ℚ) (g : Option ℚ) (d : String)
    (h1 : ¬(d = "Buy" ∧ eur > price * (1 + FEE_PERCENTAGE)))
    (h2 : ¬(d = "Sell" ∧ btc > 0)) :
    execute_trade price eur btc d g = some ⟨eur, btc, "No trade executed", g⟩ := by
  unfold execute_trade
  rw [if_neg h1, if_neg h2]

/-- One loop iteration, rewritten through the result of `execute_trade`. -/
theorem loop_step_eq (inp : CycleInput) (s : BotState) (r : TradeResult)
    (h : execute_trade (get_current_price inp.feed_result s.price_history)
        s.eur_balance s.btc_balance (call_llm inp.oracle_reply).1
        s.last_buy_price_global = some r) :
    loop_step inp s =
      some { eur_balance := r.new_eur_balance
             btc_balance := r.new_btc_balance
             price_history := s.price_history ++
               [get_current_price inp.feed_result s.price_history]
             last_buy_price_local := s.last_buy_price_local
             last_buy_price_global := r.last_buy_price } := by
  simp only [loop_step]
  rw [h]

/-! ### Claims -/

/-- C1 (amended: the price must be nonzero, since at price 0 the Buy branch
raises `ZeroDivisionError` instead of returning): for every input state with
`eur_balance > price * (1 + FEE_PERCENTAGE)` and `price ≠ 0`, the Buy branch
of `execute_trade` returns `new_btc_balance =
btc_balance + eur_balance * (1 - FEE_PERCENTAGE) / price` and
`new_eur_balance = 0`, exactly: the spend converts at the
`(1 - FEE_PERCENTAGE)` factor while the precondition threshold uses
`(1 + FEE_PERCENTAGE)`. -/
theorem buy_postconditions (price eur btc : ℚ) (g : Option ℚ)
    (hp : price ≠ 0) (h : eur > price * (1 + FEE_PERCENTAGE)) :
    ∃ r : TradeResult, execute_trade price eur btc "Buy" g = some r ∧
      r.new_btc_balance = btc + eur * (1 - FEE_PERCENTAGE) / price ∧
      r.new_eur_balance = 0 :=
  ⟨_, execute_trade_buy_eq price eur btc g hp h, rfl, rfl⟩

/-- C1 witness: the Buy of the spec scenario, 1200 quote at price 1000. -/
theorem buy_postconditions_witness :
    ∃ r : TradeResult, execute_trade 1000 1200 (3 / 10) "Buy" none = some r ∧
      r.new_btc_balance = 3 / 10 + 1200 * (1 - FEE_PERCENTAGE) / 1000 ∧
      r.new_eur_balance = 0 :=
  buy_postconditions 1000 1200 (3 / 10) none (by norm_num)
    (by norm_num [FEE_PERCENTAGE])

/-- C1 counterexample: at price 0 with quote balance 1 the stated
precondition holds, yet `execute_trade` raises (returns no balances at all)
rather than returning the stated values. -/
theorem buy_postconditions_counterexample :
    (1 : ℚ) > 0 * (1 + FEE_PERCENTAGE) ∧
    execute_trade 0 1 0 "Buy" none = none := by
  constructor
  · norm_num [FEE_PERCENTAGE]
  · unfold execute_trade
    rw [if_pos ⟨rfl, by norm_num [FEE_PERCENTAGE]⟩, if_pos rfl]

/-- C2: for every input state with `btc_balance > 0`, the Sell branch of
`execute_trade` returns `new_eur_balance =
eur_balance + btc_balance * price * (1 - FEE_PERCENTAGE)` and
`new_btc_balance = 0`, exactly: an all-in sale with the fee deducted from
the proceeds side. -/
theorem sell_postconditions (price eur btc : ℚ) (g : Option ℚ)
    (h : btc > 0) :
    ∃ r : TradeResult, execute_trade price eur btc "Sell" g = some r ∧
      r.new_eur_balance = eur + btc * price * (1 - FEE_PERCENTAGE) ∧
      r.new_btc_balance = 0 :=
  ⟨_, execute_trade_sell_eq price eur btc g h, rfl, rfl⟩

/-- C2 witness: the Sell of the spec scenario, 0.3 base at price 50000. -/
theorem sell_postconditions_witness :
    ∃ r : TradeResult, execute_trade 50000 1200 (3 / 10) "Sell" none = some r ∧
      r.new_eur_balance = 1200 + (3 / 10) * 50000 * (1 - FEE_PERCENTAGE) ∧
      r.new_btc_balance = 0 :=
  sell_postconditions 50000 1200 (3 / 10) none (by norm_num)

/-- C3 (amended): only an unparseable payload yields
`(Hold, "Invalid LLM response format")`; a payload missing the `decision`
or `reasoning` field raises `KeyError`, which lands in the outer handler
and yields `(Hold, "LLM error - holding by default")`; and a payload with
both fields present is returned as is, even when its decision token is not
one of Buy, Sell, Hold — `call_llm` itself performs no token
normalization. -/
theorem call_llm_validation :
    call_llm .badJson = ("Hold", "Invalid LLM response format") ∧
    (∀ fields : List (String × String),
      fields.lookup "decision" = none ∨ fields.lookup "reasoning" = none →
      call_llm (.payload fields) = ("Hold", "LLM error - holding by default")) ∧
    ∀ (fields : List (String × String)) (d r : String),
      fields.lookup "decision" = some d → fields.lookup "reasoning" = some r →
      call_llm (.payload fields) = (d, r) := by
  refine ⟨rfl, ?_, ?_⟩
  · intro fields h
    show payload_reply fields = _
    unfold payload_reply
    rcases hd : fields.lookup "decision" with - | d
    · rfl
    · rcases h with h | h
      · rw [hd] at h
        cases h
      · rw [h]
  · intro fields d r hd hr
    show payload_reply fields = _
    unfold payload_reply
    rw [hd, hr]

/-- C3 witness: a payload without a `decision` field falls back to the
outer-handler reply, and a payload carrying the unrecognized token `SELL`
is passed through unchanged. -/
theorem call_llm_validation_witness :
    call_llm (.payload [("reasoning", "wait")]) =
      ("Hold", "LLM error - holding by default") ∧
    call_llm (.payload [("decision", "SELL"), ("reasoning", "drop")]) =
      ("SELL", "drop") :=
  ⟨call_llm_validation.2.1 _ (Or.inl rfl),
   call_llm_validation.2.2 _ _ _ rfl rfl⟩

/-- C3 counterexample: the oracle token `buy` is outside {Buy, Sell, Hold},
yet `call_llm` returns it to the caller instead of
`(Hold, "invalid oracle response format")`. -/
theorem call_llm_validation_counterexample :
    call_llm (.payload [("decision", "buy"), ("reasoning", "dip")]) =
      ("buy", "dip") ∧
    ("buy" ≠ "Buy" ∧ "buy" ≠ "Sell" ∧ "buy" ≠ "Hold") ∧
    call_llm (.payload [("decision", "buy"), ("reasoning", "dip")]) ≠
      ("Hold", "invalid oracle response format") := by
  refine ⟨rfl, ⟨?_, ?_, ?_⟩, ?_⟩ <;> decide

/-- C4: contrary to the claim, a Buy decision with positive quote balance
at price 0 satisfies the Buy precondition (`1200 > 0 * (1 + fee)`) and then
divides the spend by the zero price: `ZeroDivisionError` propagates out of
`execute_trade` (modelled as `none`) and terminates the loop. -/
theorem buy_zero_price_crash :
    execute_trade 0 1200 (3 / 10) "Buy" none = none := by
  unfold execute_trade
  rw [if_pos ⟨rfl, by norm_num [FEE_PERCENTAGE]⟩, if_pos rfl]

/-- C5: after a cycle whose Buy succeeds at price 1000, the module-level
global `last_buy_price` (written by `execute_trade`) holds 1000, but the
value the next `call_llm` receives as last-buy-price context is still the
sentinel 0, because `main` passes its own local `last_buy_price`, which its
`global` statement does not cover and which nothing ever updates. -/
theorem last_buy_price_not_passed_to_llm :
    ∃ s1 : BotState, loop_step cycle1_input initial_state = some s1 ∧
      s1.last_buy_price_global = some 1000 ∧
      llm_last_buy_context s1 = 0 := by
  have he := execute_trade_buy_eq 1000 1200 (3 / 10) none (by norm_num)
    (by norm_num [FEE_PERCENTAGE])
  have hstep := loop_step_eq cycle1_input initial_state _ he
  exact ⟨_, hstep, rfl, rfl⟩

/-- C6 (amended: the literal reasoning string of the code is
`"LLM error - holding by default"`): every failure of the oracle call
itself is caught by the outer handler and yields exactly
`(Hold, "LLM error - holding by default")`, without raising to the
caller. -/
theorem oracle_transport_error_fallback :
    call_llm OracleReply.transportError =
      ("Hold", "LLM error - holding by default") := rfl

/-- C6 counterexample: the returned pair is not the
`(Hold, "oracle error — holding by default")` stated by the claim, whose
reasoning string differs from the literal in the code. -/
theorem oracle_transport_error_fallback_counterexample :
    call_llm OracleReply.transportError ≠
      ("Hold", "oracle error — holding by default") := by decide

/-- C7: when the price fetch fails in any way, `get_current_price` returns
the most recent element of the price history when one exists and 0 when the
history is empty, never raising to the caller. -/
theorem price_fetch_failure_fallback (h : List ℚ) :
    get_current_price none h = h.getLast?.getD 0 := by
  cases h with
  | nil => rfl
  | cons a l =>
    rw [List.getLast?_eq_getLast_of_ne_nil (List.cons_ne_nil a l)]
    rfl

/-- C7 witness: with history [3, 7] a failed fetch returns 7, the most
recent element. -/
theorem price_fetch_failure_fallback_witness :
    get_current_price none [3, 7] = 7 := by
  rw [price_fetch_failure_fallback [3, 7]]
  rfl

/-- C8 (amended: the literal summary string of the code is
`"No trade executed"`, with a capital N): Hold, a Buy failing its
precondition, or a Sell with zero base balance, each return the input
balances unchanged together with the summary `"No trade executed"` (and
leave the module-level `last_buy_price` untouched). -/
theorem noop_transitions (price eur btc : ℚ) (g : Option ℚ) (d : String)
    (h : d = "Hold" ∨ (d = "Buy" ∧ eur ≤ price * (1 + FEE_PERCENTAGE)) ∨
      (d = "Sell" ∧ btc = 0)) :
    execute_trade price eur btc d g =
      some ⟨eur, btc, "No trade executed", g⟩ := by
  rcases h with h | ⟨h, hle⟩ | ⟨h, hz⟩
  · subst h
    exact execute_trade_noop_eq price eur btc g "Hold"
      (by rintro ⟨hx, -⟩; exact absurd hx (by decide))
      (by rintro ⟨hx, -⟩; exact absurd hx (by decide))
  · subst h
    exact execute_trade_noop_eq price eur btc g "Buy"
      (by rintro ⟨-, hgt⟩; exact absurd hgt (not_lt.mpr hle))
      (by rintro ⟨hx, -⟩; exact absurd hx (by decide))
  · subst h
    exact execute_trade_noop_eq price eur btc g "Sell"
      (by rintro ⟨hx, -⟩; exact absurd hx (by decide))
      (by rintro ⟨-, hgt⟩; rw [hz] at hgt; exact lt_irrefl 0 hgt)

/-- C8 witness: the spec scenario 1200 quote at price 50000 fails the Buy
precondition (1200 is not above 51000) and is a no-op. -/
theorem noop_transitions_witness :
    execute_trade 50000 1200 (3 / 10) "Buy" none =
      some ⟨1200, 3 / 10, "No trade executed", none⟩ :=
  noop_transitions 50000 1200 (3 / 10) none "Buy"
    (Or.inr (Or.inl ⟨rfl, by norm_num [FEE_PERCENTAGE]⟩))

/-- C8 counterexample: the summary returned on a no-op is the string
`"No trade executed"`, not the `"no trade executed"` stated by the
claim. -/
theorem noop_transitions_counterexample :
    execute_trade 100 1200 (3 / 10) "Hold" none ≠
      some ⟨1200, 3 / 10, "no trade executed", none⟩ ∧
    (execute_trade 100 1200 (3 / 10) "Hold" none).map TradeResult.summary =
      some "No trade executed" := by
  have h : execute_trade 100 1200 (3 / 10) "Hold" none =
      some ⟨1200, 3 / 10, "No trade executed", none⟩ :=
    execute_trade_noop_eq 100 1200 (3 / 10) none "Hold"
      (by rintro ⟨hx, -⟩; exact absurd hx (by decide))
      (by rintro ⟨hx, -⟩; exact absurd hx (by decide))
  constructor
  · rw [h]
    intro hx
    have hs := congrArg TradeResult.summary (Option.some.inj hx)
    exact absurd hs (by decide)
  · rw [h]
    rfl

/-- C9: whenever one loop iteration completes, the new price history is the
old one with exactly the fetched price appended: its length grows by
exactly 1 and every previously stored element keeps its value and its
position. -/
theorem price_history_growth (inp : CycleInput) (s s2 : BotState)
    (h : loop_step inp s = some s2) :
    s2.price_history =
      s.price_history ++ [get_current_price inp.feed_result s.price_history] ∧
    s2.price_history.length = s.price_history.length + 1 := by
  rcases hx : execute_trade (get_current_price inp.feed_result s.price_history)
      s.eur_balance s.btc_balance (call_llm inp.oracle_reply).1
      s.last_buy_price_global with - | r
  · simp [loop_step, hx] at h
  · have hs := loop_step_eq inp s r hx
    rw [h] at hs
    injection hs with h2
    subst h2
    exact ⟨rfl, by simp⟩

/-- C9 witness: one concrete cycle from the initial state with a fetched
price of 7 appends exactly [7] to the empty history. -/
theorem price_history_growth_witness :
    ([7] : List ℚ) =
      initial_state.price_history ++
        [get_current_price (some 7) initial_state.price_history] ∧
    ([7] : List ℚ).length = initial_state.price_history.length + 1 := by
  have hx : execute_trade 7 1200 (3 / 10) "Hold" none =
      some ⟨1200, 3 / 10, "No trade executed", none⟩ :=
    execute_trade_noop_eq 7 1200 (3 / 10) none "Hold"
      (by rintro ⟨hy, -⟩; exact absurd hy (by decide))
      (by rintro ⟨hy, -⟩; exact absurd hy (by decide))
  have hstep := loop_step_eq (CycleInput.mk (some 7) OracleReply.transportError)
    initial_state _ hx
  exact price_history_growth (CycleInput.mk (some 7) OracleReply.transportError)
    initial_state _ hstep

/-- C10: any decision string other than exactly `"Buy"` and exactly
`"Sell"` (case-sensitively; including `"buy"`, `"HOLD"` or arbitrary oracle
text) takes the no-op branch of `execute_trade`: the balances come back
unchanged with summary `"No trade executed"`, so an unvalidated decision
token can never change the balances. -/
theorem unknown_decision_noop (price eur btc : ℚ) (g : Option ℚ) (d : String)
    (h1 : d ≠ "Buy") (h2 : d ≠ "Sell") :
    execute_trade price eur btc d g =
      some ⟨eur, btc, "No trade executed", g⟩ :=
  execute_trade_noop_eq price eur btc g d
    (fun hx => h1 hx.1) (fun hx => h2 hx.1)

/-- C10 witness: the lowercase token `buy` does not trade. -/
theorem unknown_decision_noop_witness :
    execute_trade 5 7 9 "buy" none = some ⟨7, 9, "No trade executed", none⟩ :=
  unknown_decision_noop 5 7 9 none "buy" (by decide) (by decide)

end CryptoBot
